import Mathlib

/-!
Verification of the aws-fis-controller repository.

This file is a shallow embedding of the controller's Go code into Lean 4:
the pure helpers are translated directly, and the two reconcilers are
translated as pure functions from (configuration, an oracle describing the
outcomes of the external AWS/Kubernetes calls, the object's state, the
current time) to (the new object state, the returned controller result, the
returned error, and the trace of provider calls issued).  Go maps are
modelled as association lists; since Go map iteration order is unspecified,
orderings derived from map iteration are modelled as first-occurrence order
and no theorem below depends on such an order beyond set membership.
Machine times (`time.Time`) are modelled as natural numbers (seconds);
`nil` time pointers are `Option.none`.
-/

namespace aws

/-- The whitespace test used by Go's `strings.TrimSpace` (`unicode.IsSpace`),
restricted to the ASCII whitespace characters; all inputs relevant to the
claims are ASCII. -/
def isSpaceGo (c : Char) : Bool :=
  c = ' ' || c = '\t' || c = '\n' || c = '\r'

/-- Go `strings.TrimSpace`: drop leading and trailing whitespace. -/
def trimSpace (s : String) : String :=
  String.mk (((s.data.dropWhile isSpaceGo).reverse.dropWhile isSpaceGo).reverse)

/-- Go `strings.ToUpper` (ASCII). -/
def toUpperGo (s : String) : String :=
  String.mk (s.data.map Char.toUpper)

/-- Go `strings.HasSuffix`. -/
def hasSuffixGo (s suffix : String) : Bool :=
  suffix.data.isSuffixOf s.data

/-- Go `strings.TrimSuffix`: remove the given suffix when present. -/
def trimSuffixGo (s suffix : String) : String :=
  if hasSuffixGo s suffix then String.mk (s.data.take (s.data.length - suffix.data.length))
  else s

/-- `parseScope` from internal/aws/fis_converter.go: converts the
user-facing scope format to the provider selection-mode string. -/
def parseScope (scope : String) : String :=
  let scope := trimSpace scope
  if scope = "" ∨ toUpperGo scope = "ALL" then "ALL"
  else if hasSuffixGo scope "%" then
    "PERCENT(" ++ trimSpace (trimSuffixGo scope "%") ++ ")"
  else
    "COUNT(" ++ trimSpace scope ++ ")"

/-- A target group of an ExperimentTemplate spec (api/v1alpha1 TargetSpec, as
used by the current converter and controller: fields Name, Namespace, Scope,
LabelSelector, Container, Filters). `LabelSelector` (a Go map) is an
association list. -/
structure TargetSpec where
  name : String
  «namespace» : String
  scope : String
  labelSelector : List (String × String)
  container : String
  deriving DecidableEq, Repr

/-- A stop-condition entry of the spec. -/
structure StopCondition where
  source : String
  value : String
  deriving DecidableEq, Repr

/-- The provider-side target produced by `convertTargets` for one target
group (types.CreateExperimentTemplateTargetInput); the `Parameters` Go map
is an association list in insertion order. -/
structure FISTarget where
  resourceType : String
  selectionMode : String
  parameters : List (String × String)
  deriving DecidableEq, Repr

/-- The per-target body of `convertTargets` from
internal/aws/fis_converter.go: resource type `aws:eks:pod`, selection mode
from `parseScope`, parameters `clusterIdentifier`, `namespace` (defaulted to
"default" when empty), `selectorType`, `selectorValue`, and
`targetContainerName` when a container is named.  `selectorValue` joins the
label-selector pairs; Go iterates its map in unspecified order, modelled
here as list order (no claim depends on the order). -/
def convertTarget (target : TargetSpec) (clusterIdentifier : String) : FISTarget :=
  let selectionMode := parseScope target.scope
  let ns := if target.«namespace» = "" then "default" else target.«namespace»
  let selectorValue :=
    String.intercalate "," (target.labelSelector.map (fun kv => kv.1 ++ "=" ++ kv.2))
  let base := [("clusterIdentifier", clusterIdentifier), ("namespace", ns),
    ("selectorType", "labelSelector"), ("selectorValue", selectorValue)]
  let params := if target.container ≠ "" then
    base ++ [("targetContainerName", target.container)] else base
  { resourceType := "aws:eks:pod", selectionMode := selectionMode, parameters := params }

/-- `convertTargets`: the Go function builds a map keyed by target name;
modelled as the association list of per-target conversions (duplicate names,
which the Go map would collapse, do not occur in the claims). -/
def convertTargets (crdTargets : List TargetSpec) (clusterIdentifier : String) :
    List (String × FISTarget) :=
  crdTargets.map (fun t => (t.name, convertTarget t clusterIdentifier))

/-- One entry of the provider's experiment listing
(internal/aws ExperimentSummary, reconstructed from its uses in
cleanupExperimentHistory and sortByStartTimeDesc: fields ID, State,
StartTime *time.Time). -/
structure ExperimentSummary where
  id : String
  state : String
  startTime : Option Nat
  deriving DecidableEq, Repr, Inhabited

end aws

/-- The controller-runtime result value (ctrl.Result): a requeue flag and an
optional requeue delay in seconds. -/
structure CtrlResult where
  requeue : Bool
  requeueAfter : Option Nat
  deriving DecidableEq, Repr

/-- The zero ctrl.Result{}. -/
def CtrlResult.empty : CtrlResult := ⟨false, Option.none⟩

namespace experimenttemplate

/-- ExperimentTemplateSpec fields used by the controller. -/
structure ExperimentTemplateSpec where
  description : String
  targets : List aws.TargetSpec
  autoCreateRole : Bool
  deriving DecidableEq, Repr

/-- ExperimentTemplateStatus fields used by the controller. -/
structure ExperimentTemplateStatus where
  templateID : String
  roleArn : String
  phase : String
  message : String
  observedGeneration : Int
  deriving DecidableEq, Repr

/-- The ExperimentTemplate object as the reconciler sees it.  The deletion
timestamp is represented by its `IsZero` test; `hasFinalizer` is whether the
controller's finalizer is in `metadata.finalizers`; annotations are an
association list. -/
structure ExperimentTemplate where
  name : String
  generation : Int
  deletionTimestampIsZero : Bool
  hasFinalizer : Bool
  annotations : List (String × String)
  spec : ExperimentTemplateSpec
  status : ExperimentTemplateStatus
  deriving DecidableEq, Repr

/-- Reconciler configuration: environment variables read by
getRequiredParameters and the Reconciler struct fields. -/
structure TplConfig where
  envRoleArn : String
  envClusterIdentifier : String
  clusterARN : String
  clusterName : String
  hasEKSClient : Bool
  deriving DecidableEq, Repr

/-- Oracle giving the outcome of every external call the template
reconciler can make; `Except.error` carries the error message.  One field per
call site; per-namespace calls take the namespace. -/
structure TplWorld where
  ensureIAMRole : Except String String
  setupRBAC : String → Except String String
  createTemplate : Except String String
  updateTemplate : Except String Unit
  deleteTemplate : Except String Unit
  deleteAccessEntry : Except String Unit
  deleteIAMRole : Except String Unit
  deleteRBAC : String → Except String Unit
  ensureAccessEntry : Nat → Except String Unit
  statusUpdate : Except String Unit
  finalizerUpdate : Except String Unit

/-- The external calls the template reconciler can issue (the trace
alphabet).  `setupRBAC`/`deleteRBAC` are the namespace-scoped access-triple
operations; the others are provider (AWS) calls. -/
inductive TplCall where
  | deleteTemplate (templateID : String)
  | deleteAccessEntry (roleArn : String)
  | deleteIAMRole (templateName : String)
  | deleteRBAC (ns : String)
  | ensureIAMRole (templateName : String)
  | setupRBAC (ns : String)
  | createTemplate (templateName : String)
  | updateTemplate (templateID : String)
  | ensureAccessEntry (roleArn : String)
  deriving DecidableEq, Repr

/-- Result of one template reconcile: the (in-memory) object after the
reconcile, the returned ctrl.Result, the returned error, and the trace of
external calls in order. -/
structure TplRecon where
  tpl : ExperimentTemplate
  result : CtrlResult
  err : Option String
  calls : List TplCall
  deriving DecidableEq, Repr

/-- `getTargetNamespaces`: the distinct non-empty namespaces of the target
groups.  The Go code collects them via a `map[string]bool`, whose iteration
order is unspecified; modelled as a deduplicated list (no claim depends on
the order). -/
def getTargetNamespaces (template : ExperimentTemplate) : List String :=
  ((template.spec.targets.map (fun t => t.«namespace»)).filter (fun ns => ns ≠ "")).dedup

/-- `getRequiredParameters` (part_003 of the source): resolve the role ARN
from env / annotation / status / EnsureIAMRole, and the cluster identifier
from env / annotation / the controller's cluster ARN.  Returns the calls
made plus either an error or (roleArn, clusterIdentifier). -/
def getRequiredParameters (cfg : TplConfig) (w : TplWorld) (template : ExperimentTemplate) :
    List TplCall × Except String (String × String) :=
  let roleArn :=
    if cfg.envRoleArn ≠ "" then cfg.envRoleArn
    else ((template.annotations.lookup "fis.dksshddl.dev/role-arn").getD "")
  let roleStep : List TplCall × Except String String :=
    if roleArn = "" then
      if template.status.roleArn ≠ "" then ([], .ok template.status.roleArn)
      else ([.ensureIAMRole template.name],
        match w.ensureIAMRole with
        | .error e => .error ("failed to ensure IAM role: " ++ e)
        | .ok created => .ok created)
    else ([], .ok roleArn)
  match roleStep with
  | (calls, .error e) => (calls, .error e)
  | (calls, .ok role) =>
    let clusterIdentifier :=
      if cfg.envClusterIdentifier ≠ "" then cfg.envClusterIdentifier
      else ((template.annotations.lookup "fis.dksshddl.dev/cluster-identifier").getD "")
    let clusterIdentifier :=
      if clusterIdentifier = "" ∧ cfg.clusterARN ≠ "" then cfg.clusterARN else clusterIdentifier
    if clusterIdentifier = "" then
      (calls, .error "CLUSTER_IDENTIFIER environment variable, fis.dksshddl.dev/cluster-identifier annotation, or --cluster-name flag is required")
    else (calls, .ok (role, clusterIdentifier))

/-- `handleDeletion` (part_003): delete the provider template (aborting on
failure), then best-effort delete the access entry, the IAM role, and the
per-namespace access triples.  Returns (trace, error). -/
def handleDeletion (cfg : TplConfig) (w : TplWorld) (template : ExperimentTemplate) :
    List TplCall × Option String :=
  if template.status.templateID ≠ "" then
    match w.deleteTemplate with
    | .error e => ([.deleteTemplate template.status.templateID], some e)
    | .ok _ =>
      ([.deleteTemplate template.status.templateID] ++ deletionTail cfg template, none)
  else (deletionTail cfg template, none)
where
  /-- Steps (2)–(4) of handleDeletion; their outcomes are logged only, so
  the trace is independent of the oracle. -/
  deletionTail (cfg : TplConfig) (template : ExperimentTemplate) : List TplCall :=
    (if cfg.hasEKSClient ∧ cfg.clusterName ≠ "" ∧ template.status.roleArn ≠ "" then
      [.deleteAccessEntry template.status.roleArn] else []) ++
    (if template.status.roleArn ≠ "" then [.deleteIAMRole template.name] else []) ++
    (getTargetNamespaces template).map .deleteRBAC

/-- The RBAC-provisioning loop of createFISExperimentTemplate /
updateFISExperimentTemplate: SetupExperimentTemplateRBAC per target
namespace, stopping at the first failure; on success the service-account
name of the last namespace is kept. -/
def setupRBACLoop (w : TplWorld) (namespaces : List String) (sa : String) :
    List TplCall × Except String String :=
  match namespaces with
  | [] => ([], .ok sa)
  | ns :: rest =>
    match w.setupRBAC ns with
    | .error e => ([.setupRBAC ns], .error e)
    | .ok sa' =>
      let (calls, res) := setupRBACLoop w rest sa'
      (.setupRBAC ns :: calls, res)

/-- The access-entry retry loop of createFISExperimentTemplate for
auto-created roles: up to 3 attempts (the attempt number indexes the
oracle), stopping at the first success; exhaustion is logged only. -/
def accessEntryRetry (w : TplWorld) (roleArn : String) : Nat → List TplCall
  | 0 => []
  | n + 1 =>
    match w.ensureAccessEntry (3 - n) with
    | .ok _ => [.ensureAccessEntry roleArn]
    | .error _ => .ensureAccessEntry roleArn :: accessEntryRetry w roleArn n

/-- `createFISExperimentTemplate` (part_003): resolve parameters, derive
target namespaces (failing when there are none), provision the access
triples, create the provider template (compensating the triples on
failure), best-effort ensure the cluster access entry, and persist the
Ready status. -/
def createFISExperimentTemplate (cfg : TplConfig) (w : TplWorld)
    (template : ExperimentTemplate) : TplRecon :=
  match getRequiredParameters cfg w template with
  | (calls, .error e) => ⟨template, .empty, some e, calls⟩
  | (calls, .ok (roleArn, _clusterIdentifier)) =>
    let targetNamespaces := getTargetNamespaces template
    if targetNamespaces = [] then
      ⟨template, .empty, some "no target namespaces found in targets", calls⟩
    else
      match setupRBACLoop w targetNamespaces "" with
      | (rbacCalls, .error e) => ⟨template, .empty, some e, calls ++ rbacCalls⟩
      | (rbacCalls, .ok _serviceAccount) =>
        let calls := calls ++ rbacCalls ++ [.createTemplate template.name]
        match w.createTemplate with
        | .error e =>
          let cleanup := targetNamespaces.map TplCall.deleteRBAC
          let status' := { template.status with phase := "Failed", message := e }
          ⟨{ template with status := status' }, .empty, some e, calls ++ cleanup⟩
        | .ok templateID =>
          let aeCalls :=
            if cfg.hasEKSClient ∧ cfg.clusterName ≠ "" ∧ roleArn ≠ "" then
              if template.spec.autoCreateRole then accessEntryRetry w roleArn 3
              else [.ensureAccessEntry roleArn]
            else []
          let status' : ExperimentTemplateStatus :=
            { templateID := templateID, roleArn := roleArn, phase := "Ready",
              message := "AWS FIS ExperimentTemplate created successfully",
              observedGeneration := template.generation }
          let template' := { template with status := status' }
          match w.statusUpdate with
          | .error e => ⟨template', .empty, some e, calls ++ aeCalls⟩
          | .ok _ => ⟨template', .empty, none, calls ++ aeCalls⟩

/-- `updateFISExperimentTemplate` (part_003): re-resolve parameters,
re-ensure the triples, update the provider template (recording Failed on
error), best-effort re-ensure the access entry, persist Ready and the new
observed generation. -/
def updateFISExperimentTemplate (cfg : TplConfig) (w : TplWorld)
    (template : ExperimentTemplate) : TplRecon :=
  match getRequiredParameters cfg w template with
  | (calls, .error e) => ⟨template, .empty, some e, calls⟩
  | (calls, .ok (roleArn, _clusterIdentifier)) =>
    let targetNamespaces := getTargetNamespaces template
    if targetNamespaces = [] then
      ⟨template, .empty, some "no target namespaces found in targets", calls⟩
    else
      match setupRBACLoop w targetNamespaces "" with
      | (rbacCalls, .error e) => ⟨template, .empty, some e, calls ++ rbacCalls⟩
      | (rbacCalls, .ok _serviceAccount) =>
        let calls := calls ++ rbacCalls ++ [.updateTemplate template.status.templateID]
        match w.updateTemplate with
        | .error e =>
          let status' := { template.status with phase := "Failed", message := e }
          ⟨{ template with status := status' }, .empty, some e, calls⟩
        | .ok _ =>
          let aeCalls :=
            if cfg.hasEKSClient ∧ cfg.clusterName ≠ "" ∧ roleArn ≠ "" then
              [.ensureAccessEntry roleArn]
            else []
          let status' :=
            { template.status with
                roleArn := roleArn, phase := "Ready",
                message := "AWS FIS ExperimentTemplate updated successfully",
                observedGeneration := template.generation }
          let template' := { template with status := status' }
          match w.statusUpdate with
          | .error e => ⟨template', .empty, some e, calls ++ aeCalls⟩
          | .ok _ => ⟨template', .empty, none, calls ++ aeCalls⟩

/-- `Reconcile` of the ExperimentTemplate controller (part_003): deletion
branch (handleDeletion then finalizer removal), finalizer addition,
unchanged-object early return, spec-drift update, or creation. -/
def Reconcile (cfg : TplConfig) (w : TplWorld) (template : ExperimentTemplate) : TplRecon :=
  if ¬ template.deletionTimestampIsZero then
    if template.hasFinalizer then
      match handleDeletion cfg w template with
      | (calls, some e) => ⟨template, .empty, some e, calls⟩
      | (calls, none) =>
        match w.finalizerUpdate with
        | .error e => ⟨template, .empty, some e, calls⟩
        | .ok _ => ⟨{ template with hasFinalizer := false }, .empty, none, calls⟩
    else ⟨template, .empty, none, []⟩
  else if ¬ template.hasFinalizer then
    match w.finalizerUpdate with
    | .error e => ⟨template, .empty, some e, []⟩
    | .ok _ => ⟨{ template with hasFinalizer := true }, ⟨true, Option.none⟩, none, []⟩
  else if template.status.templateID ≠ "" then
    if template.generation ≠ template.status.observedGeneration then
      updateFISExperimentTemplate cfg w template
    else ⟨template, .empty, none, []⟩
  else createFISExperimentTemplate cfg w template

end experimenttemplate

namespace experiment

/-- ExperimentTemplateRef: reference by provider id or by CRD name. -/
structure ExperimentTemplateRef where
  id : String
  name : String
  deriving DecidableEq, Repr

/-- ExperimentSpec fields used by the controller; history limits are
`*int32` pointers whose CRD validation enforces Minimum=0, modelled as
`Option Nat`. -/
structure ExperimentSpec where
  experimentTemplate : ExperimentTemplateRef
  schedule : String
  suspend : Option Bool
  successfulExperimentsHistoryLimit : Option Nat
  failedExperimentsHistoryLimit : Option Nat
  clientToken : String
  deriving DecidableEq, Repr

/-- ExperimentStatus fields used by the controller. -/
structure ExperimentStatus where
  experimentID : String
  templateID : String
  state : String
  reason : String
  startTime : Option Nat
  endTime : Option Nat
  lastScheduleTime : Option Nat
  nextScheduleTime : Option Nat
  active : Int
  targetAccountConfigurationsCount : Int
  deriving DecidableEq, Repr

/-- The Experiment object as the reconciler sees it. -/
structure Experiment where
  name : String
  creationTimestamp : Nat
  deletionTimestampIsZero : Bool
  hasFinalizer : Bool
  spec : ExperimentSpec
  status : ExperimentStatus
  deriving DecidableEq, Repr

/-- The provider's view of a running experiment, as returned by
GetExperiment (types.Experiment fields used by syncExperimentState). -/
structure AWSExperiment where
  stateStatus : String
  stateReason : Option String
  startTime : Option Nat
  endTime : Option Nat
  targetAccountConfigurationsCount : Option Int
  deriving DecidableEq, Repr

/-- The referenced ExperimentTemplate CRD as seen by a name lookup: only
`status.templateID` matters to resolveTemplateID. -/
structure TemplateView where
  templateID : String
  deriving DecidableEq, Repr

/-- Oracle giving the outcome of every external call the experiment
reconciler can make.  `getTemplate` is the object-store lookup of an
ExperimentTemplate by name; `cronParse` is the result of parsing
`spec.schedule` — on success, the schedule's strictly-later next-occurrence
function `Nat → Nat`. -/
structure ExpWorld where
  getTemplate : String → Except String TemplateView
  cronParse : Except String (Nat → Nat)
  startExperiment : Except String String
  getExperiment : Except String AWSExperiment
  stopExperiment : Except String Unit
  listExperiments : Except String (List aws.ExperimentSummary)
  statusUpdate : Except String Unit
  finalizerUpdate : Except String Unit

/-- The provider (AWS FIS) calls the experiment reconciler can issue.
`deleteExperiment` exists in the alphabet only to express that it is never
emitted: the provider offers no delete-experiment operation. -/
inductive FISCall where
  | startExperiment (templateID : String)
  | getExperiment (experimentID : String)
  | stopExperiment (experimentID : String)
  | listExperiments (templateID : String)
  | deleteExperiment (experimentID : String)
  deriving DecidableEq, Repr

/-- Result of one experiment reconcile: object after the reconcile,
returned ctrl.Result, returned error, provider-call trace. -/
structure ExpRecon where
  exp : Experiment
  result : CtrlResult
  err : Option String
  calls : List FISCall
  deriving DecidableEq, Repr

/-- Errors of resolveTemplateID, tagged by kind. -/
inductive ResolveErr where
  | getFailed (name msg : String)
  | notReady (name : String)
  | notSpecified
  deriving DecidableEq, Repr

/-- The error message carried by a ResolveErr (the fmt.Errorf texts of the
source). -/
def ResolveErr.message : ResolveErr → String
  | .getFailed name msg => "failed to get ExperimentTemplate " ++ name ++ ": " ++ msg
  | .notReady name => "ExperimentTemplate " ++ name ++ " does not have a template ID yet"
  | .notSpecified => "either experimentTemplate.id or experimentTemplate.name must be specified"

/-- `resolveTemplateID`: a directly supplied id wins; otherwise a name
lookup that requires the referenced template's `status.templateID` to be
non-empty. -/
def resolveTemplateID (w : ExpWorld) (experiment : Experiment) : Except ResolveErr String :=
  if experiment.spec.experimentTemplate.id ≠ "" then
    .ok experiment.spec.experimentTemplate.id
  else if experiment.spec.experimentTemplate.name ≠ "" then
    match w.getTemplate experiment.spec.experimentTemplate.name with
    | .error e => .error (.getFailed experiment.spec.experimentTemplate.name e)
    | .ok template =>
      if template.templateID = "" then
        .error (.notReady experiment.spec.experimentTemplate.name)
      else .ok template.templateID
  else .error .notSpecified

/-- `startExperiment` (controller): issue the provider start call (the
FISClient wrapper errors without reaching the provider when no template id
is resolved), then persist either the failure or the initiating status.
`now` is the reconcile's current time. -/
def startExperiment (w : ExpWorld) (experiment : Experiment) (now : Nat) : ExpRecon :=
  let startResult : Except String String :=
    if experiment.status.templateID = "" then .error "template ID not resolved in status"
    else match w.startExperiment with
      | .error e => .error ("failed to start experiment: " ++ e)
      | .ok id => .ok id
  let calls := [FISCall.startExperiment experiment.status.templateID]
  match startResult with
  | .error e =>
    let status' := { experiment.status with state := "failed", reason := e }
    ⟨{ experiment with status := status' }, .empty, some e, calls⟩
  | .ok experimentID =>
    let status' :=
      { experiment.status with
          experimentID := experimentID, state := "initiating",
          reason := "Experiment is initiating", startTime := some now, active := 1 }
    let experiment' := { experiment with status := status' }
    match w.statusUpdate with
    | .error e => ⟨experiment', .empty, some e, calls⟩
    | .ok _ =>
      if experiment.spec.schedule = "" then ⟨experiment', ⟨false, some 10⟩, none, calls⟩
      else ⟨experiment', .empty, none, calls⟩

/-- `syncExperimentState`: poll the provider run and copy its state into
status; requeue in 10s while non-terminal, stop on terminal states,
requeue in 30s otherwise. -/
def syncExperimentState (w : ExpWorld) (experiment : Experiment) : ExpRecon :=
  let calls := [FISCall.getExperiment experiment.status.experimentID]
  match w.getExperiment with
  | .error e => ⟨experiment, ⟨false, some 30⟩, some e, calls⟩
  | .ok awsExperiment =>
    let status₁ :=
      { experiment.status with
          state := awsExperiment.stateStatus,
          reason := (awsExperiment.stateReason.getD experiment.status.reason) }
    let status₂ :=
      if awsExperiment.startTime.isSome ∧ experiment.status.startTime = none then
        { status₁ with startTime := awsExperiment.startTime }
      else status₁
    let status₃ :=
      match awsExperiment.endTime with
      | some t => { status₂ with endTime := some t, active := 0 }
      | none => { status₂ with active := 1 }
    let status₄ :=
      match awsExperiment.targetAccountConfigurationsCount with
      | some n => { status₃ with targetAccountConfigurationsCount := n }
      | none => status₃
    let experiment' := { experiment with status := status₄ }
    match w.statusUpdate with
    | .error e => ⟨experiment', .empty, some e, calls⟩
    | .ok _ =>
      if status₄.state = "initiating" ∨ status₄.state = "pending" ∨
          status₄.state = "running" ∨ status₄.state = "stopping" then
        ⟨experiment', ⟨false, some 10⟩, none, calls⟩
      else if status₄.state = "completed" ∨ status₄.state = "stopped" ∨
          status₄.state = "failed" then
        ⟨experiment', .empty, none, calls⟩
      else ⟨experiment', ⟨false, some 30⟩, none, calls⟩

/-- `handleOneTimeExperiment`: start when no run has been recorded,
otherwise poll. -/
def handleOneTimeExperiment (w : ExpWorld) (experiment : Experiment) (now : Nat) : ExpRecon :=
  if experiment.status.experimentID = "" then startExperiment w experiment now
  else syncExperimentState w experiment

/-- `sortByStartTimeDesc`'s swap condition on two optional start times:
`iTime == nil || (jTime != nil && jTime.After(*iTime))`. -/
def swapNeeded (iTime jTime : Option Nat) : Bool :=
  match iTime, jTime with
  | none, _ => true
  | some _, none => false
  | some s, some t => s < t

/-- One iteration body of sortByStartTimeDesc's inner loop: swap the
elements at `i` and `j` when the condition holds. -/
def sortStep (l : List aws.ExperimentSummary) (i j : Nat) : List aws.ExperimentSummary :=
  if swapNeeded (l.getD i default).startTime (l.getD j default).startTime then
    (l.set i (l.getD j default)).set j (l.getD i default)
  else l

/-- The inner loop `for j := i+1; j < n; j++` of sortByStartTimeDesc. -/
def sortInner (l : List aws.ExperimentSummary) (i j n : Nat) : List aws.ExperimentSummary :=
  if j < n then sortInner (sortStep l i j) i (j + 1) n else l
termination_by n - j

/-- The outer loop `for i := 0; i < n-1; i++` of sortByStartTimeDesc. -/
def sortOuter (l : List aws.ExperimentSummary) (i n : Nat) : List aws.ExperimentSummary :=
  if i < n - 1 then sortOuter (sortInner l i (i + 1) n) (i + 1) n else l
termination_by n - 1 - i

/-- `sortByStartTimeDesc`: the hand-rolled exchange sort of the source,
newest start time first, nil start times treated as oldest. -/
def sortByStartTimeDesc (experiments : List aws.ExperimentSummary) : List aws.ExperimentSummary :=
  sortOuter experiments 0 experiments.length

/-- Result of cleanupExperimentHistory: the provider calls made, the
returned error, and the entries reported in the log as exceeding the
retention limits (the only visible effect of the retention comparison). -/
structure CleanupResult where
  calls : List FISCall
  err : Option String
  loggedSuccessful : List aws.ExperimentSummary
  loggedFailed : List aws.ExperimentSummary
  deriving DecidableEq, Repr

/-- `cleanupExperimentHistory`: list the provider runs of the resolved
template, partition into successful and failed/stopped, sort each newest
first, and log (only) the entries beyond the retention limits
(defaults 3 successful, 1 failed). -/
def cleanupExperimentHistory (w : ExpWorld) (experiment : Experiment) : CleanupResult :=
  if experiment.spec.schedule = "" then ⟨[], none, [], []⟩
  else if experiment.status.templateID = "" then ⟨[], none, [], []⟩
  else
    let successLimit := experiment.spec.successfulExperimentsHistoryLimit.getD 3
    let failedLimit := experiment.spec.failedExperimentsHistoryLimit.getD 1
    let calls := [FISCall.listExperiments experiment.status.templateID]
    match w.listExperiments with
    | .error e => ⟨calls, some ("failed to list experiments: " ++ e), [], []⟩
    | .ok experiments =>
      let successful := experiments.filter (fun e => e.state = "completed")
      let failed := experiments.filter (fun e => e.state = "failed" ∨ e.state = "stopped")
      let successful := sortByStartTimeDesc successful
      let failed := sortByStartTimeDesc failed
      let loggedSuccessful :=
        if successful.length > successLimit then successful.drop successLimit else []
      let loggedFailed :=
        if failed.length > failedLimit then failed.drop failedLimit else []
      ⟨calls, none, loggedSuccessful, loggedFailed⟩

/-- `handleScheduledExperiment`: parse the cron expression, decide whether a
run is due relative to the last run (or the creation time when none),
start a due run and record the schedule times, otherwise persist the next
occurrence and requeue exactly at it.  Both `time.Now()` reads of the
source are modelled as the single instant `now`. -/
def handleScheduledExperiment (w : ExpWorld) (experiment : Experiment) (now : Nat) : ExpRecon :=
  match w.cronParse with
  | .error e =>
    let status' :=
      { experiment.status with state := "failed", reason := "Invalid cron schedule: " ++ e }
    ⟨{ experiment with status := status' }, .empty, some e, []⟩
  | .ok next =>
    let dueCheck : Option Nat :=
      match experiment.status.lastScheduleTime with
      | none =>
        let nextAfterCreation := next experiment.creationTimestamp
        if nextAfterCreation ≤ now then some nextAfterCreation else none
      | some last =>
        let nextAfterLast := next last
        if nextAfterLast ≤ now then some nextAfterLast else none
    let nextScheduleTime :=
      match dueCheck with
      | some missedRun => next missedRun
      | none =>
        match experiment.status.lastScheduleTime with
        | some last => let n := next last; if n ≤ now then next now else n
        | none => next now
    let statusChanged := experiment.status.nextScheduleTime ≠ some nextScheduleTime
    let experiment' :=
      { experiment with
          status := { experiment.status with nextScheduleTime := some nextScheduleTime } }
    match dueCheck with
    | none =>
      if statusChanged then
        match w.statusUpdate with
        | .error e => ⟨experiment', .empty, some e, []⟩
        | .ok _ => ⟨experiment', ⟨false, some (nextScheduleTime - now)⟩, none, []⟩
      else ⟨experiment', ⟨false, some (nextScheduleTime - now)⟩, none, []⟩
    | some _missedRun =>
      let started := startExperiment w experiment' now
      match started.err with
      | some e => ⟨started.exp, started.result, some e, started.calls⟩
      | none =>
        let status' :=
          { started.exp.status with
              lastScheduleTime := some now, nextScheduleTime := some nextScheduleTime }
        let experiment' := { started.exp with status := status' }
        match w.statusUpdate with
        | .error e => ⟨experiment', .empty, some e, started.calls⟩
        | .ok _ =>
          let cleanup := cleanupExperimentHistory w experiment'
          ⟨experiment', ⟨false, some (nextScheduleTime - now)⟩, none,
            started.calls ++ cleanup.calls⟩

/-- `handleDeletion` of the experiment controller: stop a run still in
progress (best-effort) and remove the finalizer. -/
def handleDeletion (w : ExpWorld) (experiment : Experiment) : ExpRecon :=
  let calls :=
    if experiment.status.experimentID ≠ "" ∧
        (experiment.status.state = "initiating" ∨ experiment.status.state = "pending" ∨
          experiment.status.state = "running") then
      [FISCall.stopExperiment experiment.status.experimentID]
    else []
  match w.finalizerUpdate with
  | .error e => ⟨experiment, .empty, some e, calls⟩
  | .ok _ => ⟨{ experiment with hasFinalizer := false }, .empty, none, calls⟩

/-- `Reconcile` of the Experiment controller: deletion, finalizer
addition, suspension, template resolution, then the scheduled or one-time
branch. -/
def Reconcile (w : ExpWorld) (experiment : Experiment) (now : Nat) : ExpRecon :=
  if ¬ experiment.deletionTimestampIsZero then handleDeletion w experiment
  else if ¬ experiment.hasFinalizer then
    match w.finalizerUpdate with
    | .error e => ⟨experiment, .empty, some e, []⟩
    | .ok _ => ⟨{ experiment with hasFinalizer := true }, ⟨true, Option.none⟩, none, []⟩
  else if experiment.spec.suspend = some true then ⟨experiment, .empty, none, []⟩
  else
    match resolveTemplateID w experiment with
    | .error e =>
      let status' :=
        { experiment.status with
            state := "failed",
            reason := "Failed to resolve template ID: " ++ e.message }
      ⟨{ experiment with status := status' }, .empty, some e.message, []⟩
    | .ok templateID =>
      let withID :=
        { experiment with status := { experiment.status with templateID := templateID } }
      let updateStep : Except String Experiment :=
        if experiment.status.templateID ≠ templateID then
          match w.statusUpdate with
          | .error e => .error e
          | .ok _ => .ok withID
        else .ok experiment
      match updateStep with
      | .error e => ⟨withID, .empty, some e, []⟩
      | .ok experiment' =>
        if experiment'.spec.schedule ≠ "" then handleScheduledExperiment w experiment' now
        else handleOneTimeExperiment w experiment' now

end experiment

/-! ### Helper definitions for the verification -/

namespace experiment

/-- The base instant against which the schedule's next occurrence decides
whether a run is due: the last recorded run when present, the creation time
otherwise (§ handleScheduledExperiment). -/
def dueBase (experiment : Experiment) : Nat :=
  experiment.status.lastScheduleTime.getD experiment.creationTimestamp

/-- Recognizer of provider start calls in a trace. -/
def isStartCall : FISCall → Bool
  | .startExperiment _ => true
  | _ => false

/-- The next-occurrence function of a "run every minute" schedule over
seconds: the smallest positive multiple of 60 strictly after `t`. -/
def everyMinute (t : Nat) : Nat := (t / 60 + 1) * 60

/-- Sort key of an optional start time: nil sorts as oldest, below every
concrete time. -/
def timeKey : Option Nat → Nat
  | none => 0
  | some t => t + 1

/-- The comparison under which `sortByStartTimeDesc` sorts: later start
times (nil last) come first. -/
def descByStart (x y : aws.ExperimentSummary) : Prop :=
  timeKey y.startTime ≤ timeKey x.startTime

/-- The start-time key of the entry at position `a`. -/
def keyAt (l : List aws.ExperimentSummary) (a : Nat) : Nat :=
  timeKey ((l.getD a default).startTime)

/-- Every position before `i` holds a value at least as large (by start-time
key) as every later position below `n`; the outer-loop invariant of the
exchange sort. -/
def SortedPrefix (i n : Nat) (l : List aws.ExperimentSummary) : Prop :=
  ∀ a b, a < b → b < n → a < i → keyAt l b ≤ keyAt l a

/-- Sample world for witnesses: every external call succeeds. -/
def expWorldOK : ExpWorld where
  getTemplate := fun _ => .ok ⟨"EXT-ready"⟩
  cronParse := .ok everyMinute
  startExperiment := .ok "EXP123"
  getExperiment := .ok ⟨"running", some "in progress", some 5, none, some 1⟩
  stopExperiment := .ok ()
  listExperiments := .ok []
  statusUpdate := .ok ()
  finalizerUpdate := .ok ()

/-- Sample experiment object for witnesses: a scheduled experiment with a
resolved template and no prior run. -/
def expSample : Experiment where
  name := "sample"
  creationTimestamp := 0
  deletionTimestampIsZero := true
  hasFinalizer := true
  spec := { experimentTemplate := ⟨"EXT-1", ""⟩, schedule := "* * * * *",
            suspend := none, successfulExperimentsHistoryLimit := none,
            failedExperimentsHistoryLimit := none, clientToken := "" }
  status := { experimentID := "", templateID := "EXT-1", state := "", reason := "",
              startTime := none, endTime := none, lastScheduleTime := none,
              nextScheduleTime := none, active := 0,
              targetAccountConfigurationsCount := 0 }

/-- `expSample` with the suspend flag set. -/
def suspendedSample : Experiment :=
  { expSample with spec := { expSample.spec with suspend := some true } }

/-- `expSample` referencing its template by name instead of by id. -/
def byNameSample : Experiment :=
  { expSample with spec := { expSample.spec with experimentTemplate := ⟨"", "my-template"⟩ } }

/-- Sample world whose template lookup finds a template that has no
provider identifier yet. -/
def worldTemplateNotReady : ExpWorld :=
  { expWorldOK with getTemplate := fun _ => .ok ⟨""⟩ }

/-- A no-schedule experiment whose provider run is already started. -/
def oneShotStarted : Experiment :=
  { expSample with
      spec := { expSample.spec with schedule := "" }
      status := { expSample.status with experimentID := "EXP-9", state := "running" } }

/-- A provider run listing mixing completed, failed, stopped and
nil-start-time entries. -/
def histListing : List aws.ExperimentSummary :=
  [⟨"e1", "completed", some 100⟩, ⟨"e2", "failed", some 50⟩,
   ⟨"e3", "completed", none⟩, ⟨"e4", "completed", some 200⟩,
   ⟨"e5", "stopped", some 150⟩, ⟨"e6", "completed", some 120⟩]

/-- Sample world whose run listing returns `histListing`. -/
def worldWithHistory : ExpWorld :=
  { expWorldOK with listExperiments := .ok histListing }

end experiment

namespace experimenttemplate

/-- Sample world for witnesses: every external call succeeds. -/
def tplWorldOK : TplWorld where
  ensureIAMRole := .ok "arn:aws:iam::1:role/auto"
  setupRBAC := fun _ => .ok "fis-pod-sa"
  createTemplate := .ok "EXT-new"
  updateTemplate := .ok ()
  deleteTemplate := .ok ()
  deleteAccessEntry := .ok ()
  deleteIAMRole := .ok ()
  deleteRBAC := fun _ => .ok ()
  ensureAccessEntry := fun _ => .ok ()
  statusUpdate := .ok ()
  finalizerUpdate := .ok ()

/-- Sample reconciler configuration for witnesses. -/
def tplConfigSample : TplConfig where
  envRoleArn := "arn:aws:iam::1:role/fis"
  envClusterIdentifier := "arn:aws:eks:ap-northeast-2:1:cluster/c"
  clusterARN := ""
  clusterName := "c"
  hasEKSClient := true

/-- Sample template object for witnesses: one target in namespace
"default", provider template already created and observed. -/
def tplSample : ExperimentTemplate where
  name := "tpl"
  generation := 2
  deletionTimestampIsZero := true
  hasFinalizer := true
  annotations := []
  spec := { description := "", autoCreateRole := false,
            targets := [{ name := "t1", «namespace» := "default", scope := "ALL",
                          labelSelector := [("app", "nginx")], container := "" }] }
  status := { templateID := "EXT-1", roleArn := "arn:aws:iam::1:role/fis",
              phase := "Ready", message := "", observedGeneration := 2 }

/-- `tplSample` marked for deletion (deletion timestamp set). -/
def tplDeleting : ExperimentTemplate := { tplSample with deletionTimestampIsZero := false }

/-- Sample world in which the provider template deletion fails. -/
def tplWorldDeleteFails : TplWorld := { tplWorldOK with deleteTemplate := .error "AccessDenied" }

/-- Sample world in which the provider template creation fails. -/
def tplWorldCreateFails : TplWorld := { tplWorldOK with createTemplate := .error "throttled" }

/-- Sample world in which the best-effort cleanup steps (2)-(4) all fail
while step 1 succeeds. -/
def tplWorldTailFails : TplWorld :=
  { tplWorldOK with
      deleteAccessEntry := .error "entry busy"
      deleteIAMRole := .error "role busy"
      deleteRBAC := fun _ => .error "rbac busy" }

/-- `tplSample` before its provider template exists (empty templateID). -/
def tplFresh : ExperimentTemplate :=
  { tplSample with status := { tplSample.status with templateID := "" } }

/-- A template whose only target omits the namespace. -/
def tplNoNamespaces : ExperimentTemplate :=
  { tplFresh with
      spec := { tplFresh.spec with
        targets := [{ name := "t1", «namespace» := "", scope := "3",
                      labelSelector := [("app", "nginx")], container := "" }] } }

end experimenttemplate

/-! ### Theorems -/

/-- C9: the scope-string parser returns "ALL" for input "ALL", "COUNT(3)"
for input "3", and "PERCENT(50)" for input "50%". -/
theorem C9_parseScope_examples :
    aws.parseScope "ALL" = "ALL" ∧ aws.parseScope "3" = "COUNT(3)" ∧
    aws.parseScope "50%" = "PERCENT(50)" := by
  decide

/-- C6: reconciling an unchanged ExperimentTemplate — status.templateID set
and metadata.generation equal to status.observedGeneration — performs zero
additional external calls (provider or cluster) and leaves the object,
result and error untouched. -/
theorem C6_unchanged_template_no_calls
    (cfg : experimenttemplate.TplConfig) (w : experimenttemplate.TplWorld)
    (tpl : experimenttemplate.ExperimentTemplate)
    (hlive : tpl.deletionTimestampIsZero = true)
    (hfin : tpl.hasFinalizer = true)
    (hid : tpl.status.templateID ≠ "")
    (hgen : tpl.generation = tpl.status.observedGeneration) :
    experimenttemplate.Reconcile cfg w tpl = ⟨tpl, CtrlResult.empty, none, []⟩ := by
  unfold experimenttemplate.Reconcile
  simp [hlive, hfin, hid, hgen]

/-- Witness for C6 at a concrete unchanged template. -/
theorem C6_unchanged_template_no_calls_witness :
    (experimenttemplate.tplSample.deletionTimestampIsZero = true ∧
      experimenttemplate.tplSample.hasFinalizer = true ∧
      experimenttemplate.tplSample.status.templateID ≠ "" ∧
      experimenttemplate.tplSample.generation =
        experimenttemplate.tplSample.status.observedGeneration) ∧
    experimenttemplate.Reconcile experimenttemplate.tplConfigSample
      experimenttemplate.tplWorldOK experimenttemplate.tplSample =
      ⟨experimenttemplate.tplSample, CtrlResult.empty, none, []⟩ :=
  ⟨by decide,
    C6_unchanged_template_no_calls experimenttemplate.tplConfigSample
      experimenttemplate.tplWorldOK experimenttemplate.tplSample
      (by decide) (by decide) (by decide) (by decide)⟩

/-- C7: a non-deleted Experiment with spec.suspend true never issues any
provider call (in particular no start), its status is unchanged, and with
the finalizer already present the reconcile returns the empty result with
no error — before any start or schedule handling. -/
theorem C7_suspended_never_starts
    (w : experiment.ExpWorld) (e : experiment.Experiment) (now : Nat)
    (hlive : e.deletionTimestampIsZero = true)
    (hsusp : e.spec.suspend = some true) :
    (experiment.Reconcile w e now).calls = [] ∧
    (experiment.Reconcile w e now).exp.status = e.status ∧
    (e.hasFinalizer = true →
      experiment.Reconcile w e now = ⟨e, CtrlResult.empty, none, []⟩) := by
  unfold experiment.Reconcile
  cases hf : e.hasFinalizer
  · cases hu : w.finalizerUpdate <;> simp [hlive, hf, hsusp, hu]
  · simp [hlive, hf, hsusp]

/-- Witness for C7 at a concrete suspended experiment. -/
theorem C7_suspended_never_starts_witness :
    ((experiment.suspendedSample.deletionTimestampIsZero = true ∧
       experiment.suspendedSample.spec.suspend = some true) ∧
      experiment.suspendedSample.hasFinalizer = true) ∧
    experiment.Reconcile experiment.expWorldOK experiment.suspendedSample 500 =
      ⟨experiment.suspendedSample, CtrlResult.empty, none, []⟩ :=
  ⟨by decide,
    (C7_suspended_never_starts experiment.expWorldOK experiment.suspendedSample 500
      (by decide) (by decide)).2.2 (by decide)⟩

/-- C5: a directly supplied template identifier wins over a name lookup,
and a name lookup that finds the referenced template before its
status.templateID is set yields the tagged "not ready" error; in that case
the reconcile surfaces the error to the framework (so it is retried with
backoff), issues no provider call, and records state "failed". -/
theorem C5_resolve_precedence_and_notReady
    (w : experiment.ExpWorld) (e : experiment.Experiment) (now : Nat) :
    (e.spec.experimentTemplate.id ≠ "" →
      experiment.resolveTemplateID w e = .ok e.spec.experimentTemplate.id) ∧
    (∀ tv : experiment.TemplateView,
      e.spec.experimentTemplate.id = "" → e.spec.experimentTemplate.name ≠ "" →
      w.getTemplate e.spec.experimentTemplate.name = .ok tv → tv.templateID = "" →
      experiment.resolveTemplateID w e =
        .error (.notReady e.spec.experimentTemplate.name) ∧
      (e.deletionTimestampIsZero = true → e.hasFinalizer = true →
        e.spec.suspend ≠ some true →
        (experiment.Reconcile w e now).err =
          some (experiment.ResolveErr.notReady e.spec.experimentTemplate.name).message ∧
        (experiment.Reconcile w e now).calls = [] ∧
        (experiment.Reconcile w e now).exp.status.state = "failed")) := by
  constructor
  · intro hid
    unfold experiment.resolveTemplateID
    simp [hid]
  · intro tv hid hname hget htv
    have hres : experiment.resolveTemplateID w e =
        .error (.notReady e.spec.experimentTemplate.name) := by
      unfold experiment.resolveTemplateID
      simp [hid, hname, hget, htv]
    refine ⟨hres, ?_⟩
    intro hlive hfin hsusp
    unfold experiment.Reconcile
    simp [hlive, hfin, hsusp, hres]

/-- Witness for C5 at a concrete by-name reference to a not-yet-ready
template. -/
theorem C5_resolve_precedence_and_notReady_witness :
    (experiment.byNameSample.spec.experimentTemplate.id = "" ∧
      experiment.byNameSample.spec.experimentTemplate.name ≠ "" ∧
      experiment.worldTemplateNotReady.getTemplate
        experiment.byNameSample.spec.experimentTemplate.name = .ok ⟨""⟩ ∧
      experiment.byNameSample.deletionTimestampIsZero = true ∧
      experiment.byNameSample.hasFinalizer = true ∧
      experiment.byNameSample.spec.suspend ≠ some true) ∧
    (experiment.Reconcile experiment.worldTemplateNotReady experiment.byNameSample 7).err =
      some (experiment.ResolveErr.notReady "my-template").message ∧
    (experiment.Reconcile experiment.worldTemplateNotReady experiment.byNameSample 7).calls =
      [] := by
  refine ⟨⟨by decide, by decide, rfl, by decide, by decide, by decide⟩, ?_, ?_⟩
  · exact (((C5_resolve_precedence_and_notReady experiment.worldTemplateNotReady
      experiment.byNameSample 7).2 ⟨""⟩ (by decide) (by decide) rfl rfl).2
      (by decide) (by decide) (by decide)).1
  · exact (((C5_resolve_precedence_and_notReady experiment.worldTemplateNotReady
      experiment.byNameSample 7).2 ⟨""⟩ (by decide) (by decide) rfl rfl).2
      (by decide) (by decide) (by decide)).2.1

/-- When every per-namespace RBAC setup succeeds, the provisioning loop
issues exactly one setup call per namespace, in order, and succeeds. -/
theorem setupRBACLoop_ok (w : experimenttemplate.TplWorld) :
    ∀ (l : List String) (sa : String),
      (∀ ns ∈ l, ∃ sa', w.setupRBAC ns = .ok sa') →
      ∃ sa'', experimenttemplate.setupRBACLoop w l sa =
        (l.map .setupRBAC, .ok sa'') := by
  intro l
  induction l with
  | nil => exact fun sa _ => ⟨sa, rfl⟩
  | cons ns rest ih =>
    intro sa h
    obtain ⟨sa', hsa⟩ := h ns (by simp)
    obtain ⟨sa'', hrec⟩ := ih sa' (fun x hx => h x (by simp [hx]))
    refine ⟨sa'', ?_⟩
    unfold experimenttemplate.setupRBACLoop
    rw [hsa]
    simp [hrec]

/-- C3: when the provider create-template call fails on the create path,
the reconciler deletes the access triples it just created in every target
namespace, records phase Failed with the provider's error message, and
returns the empty ctrl.Result (scheduling no requeue itself; the error is
surfaced to the framework). -/
theorem C3_create_failure_compensates
    (cfg : experimenttemplate.TplConfig) (w : experimenttemplate.TplWorld)
    (tpl : experimenttemplate.ExperimentTemplate)
    (pcalls : List experimenttemplate.TplCall) (role cid msg : String)
    (hparams : experimenttemplate.getRequiredParameters cfg w tpl = (pcalls, .ok (role, cid)))
    (hns : experimenttemplate.getTargetNamespaces tpl ≠ [])
    (hsetup : ∀ ns ∈ experimenttemplate.getTargetNamespaces tpl,
      ∃ sa, w.setupRBAC ns = .ok sa)
    (hcreate : w.createTemplate = .error msg) :
    experimenttemplate.createFISExperimentTemplate cfg w tpl =
      ⟨{ tpl with status := { tpl.status with phase := "Failed", message := msg } },
        CtrlResult.empty, some msg,
        pcalls ++ (experimenttemplate.getTargetNamespaces tpl).map .setupRBAC ++
          [.createTemplate tpl.name] ++
          (experimenttemplate.getTargetNamespaces tpl).map .deleteRBAC⟩ := by
  obtain ⟨sa, hloop⟩ :=
    setupRBACLoop_ok w (experimenttemplate.getTargetNamespaces tpl) "" hsetup
  unfold experimenttemplate.createFISExperimentTemplate
  rw [hparams]
  simp [hns, hloop, hcreate, List.append_assoc]

/-- Witness for C3: create fails on a one-namespace template. -/
theorem C3_create_failure_compensates_witness :
    (experimenttemplate.getRequiredParameters experimenttemplate.tplConfigSample
        experimenttemplate.tplWorldCreateFails experimenttemplate.tplFresh =
        ([], .ok ("arn:aws:iam::1:role/fis", "arn:aws:eks:ap-northeast-2:1:cluster/c")) ∧
      experimenttemplate.getTargetNamespaces experimenttemplate.tplFresh ≠ [] ∧
      experimenttemplate.tplWorldCreateFails.createTemplate = .error "throttled") ∧
    experimenttemplate.createFISExperimentTemplate experimenttemplate.tplConfigSample
      experimenttemplate.tplWorldCreateFails experimenttemplate.tplFresh =
      ⟨{ experimenttemplate.tplFresh with
          status := { experimenttemplate.tplFresh.status with
            phase := "Failed", message := "throttled" } },
        CtrlResult.empty, some "throttled",
        [] ++ (experimenttemplate.getTargetNamespaces experimenttemplate.tplFresh).map
            .setupRBAC ++ [.createTemplate experimenttemplate.tplFresh.name] ++
          (experimenttemplate.getTargetNamespaces experimenttemplate.tplFresh).map
            .deleteRBAC⟩ :=
  ⟨⟨rfl, by decide, rfl⟩,
    C3_create_failure_compensates experimenttemplate.tplConfigSample
      experimenttemplate.tplWorldCreateFails experimenttemplate.tplFresh
      [] "arn:aws:iam::1:role/fis" "arn:aws:eks:ap-northeast-2:1:cluster/c" "throttled"
      rfl (by decide) (fun ns _ => ⟨"fis-pod-sa", rfl⟩) rfl⟩

/-- C10: a target with an empty namespace is excluded from the distinct
target-namespace set while target conversion defaults it to "default"; so a
template whose every target omits the namespace makes the create path fail
with the "no target namespaces found" error (no access provisioned
anywhere), even though each converted target would address namespace
"default". -/
theorem C10_empty_namespaces_create_fails
    (cfg : experimenttemplate.TplConfig) (w : experimenttemplate.TplWorld)
    (tpl : experimenttemplate.ExperimentTemplate) (cid : String)
    (hall : ∀ t ∈ tpl.spec.targets, t.«namespace» = "")
    (hrole : cfg.envRoleArn ≠ "") (hcid : cfg.envClusterIdentifier ≠ "") :
    experimenttemplate.getTargetNamespaces tpl = [] ∧
    experimenttemplate.createFISExperimentTemplate cfg w tpl =
      ⟨tpl, CtrlResult.empty, some "no target namespaces found in targets", []⟩ ∧
    ∀ t ∈ tpl.spec.targets,
      (aws.convertTarget t cid).parameters.lookup "namespace" = some "default" := by
  have hns : experimenttemplate.getTargetNamespaces tpl = [] := by
    unfold experimenttemplate.getTargetNamespaces
    have : (tpl.spec.targets.map (fun t => t.«namespace»)).filter (fun ns => ns ≠ "") = [] := by
      rw [List.filter_eq_nil_iff]
      intro a ha
      obtain ⟨t, ht, rfl⟩ := List.mem_map.mp ha
      simp [hall t ht]
    rw [this]
    rfl
  have hparams : experimenttemplate.getRequiredParameters cfg w tpl =
      ([], .ok (cfg.envRoleArn, cfg.envClusterIdentifier)) := by
    unfold experimenttemplate.getRequiredParameters
    simp [hrole, hcid]
  refine ⟨hns, ?_, ?_⟩
  · unfold experimenttemplate.createFISExperimentTemplate
    rw [hparams]
    simp [hns]
  · intro t ht
    unfold aws.convertTarget
    by_cases hc : t.container ≠ "" <;> simp [hall t ht, hc, List.lookup]

/-- Witness for C10 at a concrete template whose only target omits the
namespace. -/
theorem C10_empty_namespaces_create_fails_witness :
    ((∀ t ∈ experimenttemplate.tplNoNamespaces.spec.targets, t.«namespace» = "") ∧
      experimenttemplate.tplConfigSample.envRoleArn ≠ "" ∧
      experimenttemplate.tplConfigSample.envClusterIdentifier ≠ "") ∧
    experimenttemplate.getTargetNamespaces experimenttemplate.tplNoNamespaces = [] ∧
    experimenttemplate.createFISExperimentTemplate experimenttemplate.tplConfigSample
      experimenttemplate.tplWorldOK experimenttemplate.tplNoNamespaces =
      ⟨experimenttemplate.tplNoNamespaces, CtrlResult.empty,
        some "no target namespaces found in targets", []⟩ ∧
    ∀ t ∈ experimenttemplate.tplNoNamespaces.spec.targets,
      (aws.convertTarget t "cluster-1").parameters.lookup "namespace" = some "default" :=
  ⟨⟨by decide, by decide, by decide⟩,
    C10_empty_namespaces_create_fails experimenttemplate.tplConfigSample
      experimenttemplate.tplWorldOK experimenttemplate.tplNoNamespaces "cluster-1"
      (by decide) (by decide) (by decide)⟩

/-- C1 counterexample: deleting a template whose provider-template deletion
(step 1) fails.  Although the object records a role ARN, the EKS client and
cluster name are configured, and a target namespace exists — so steps 2–4
are all applicable — the reconcile issues only the step-1 call, skips the
access-entry, role and access-triple deletions, and leaves the finalizer in
place, contradicting the claim that all four steps are attempted and the
finalizer removed regardless of step outcomes. -/
theorem C1_step1_failure_counterexample :
    (experimenttemplate.Reconcile experimenttemplate.tplConfigSample
        experimenttemplate.tplWorldDeleteFails experimenttemplate.tplDeleting).calls =
      [.deleteTemplate "EXT-1"] ∧
    (experimenttemplate.Reconcile experimenttemplate.tplConfigSample
        experimenttemplate.tplWorldDeleteFails experimenttemplate.tplDeleting).tpl.hasFinalizer
      = true ∧
    experimenttemplate.TplCall.deleteAccessEntry "arn:aws:iam::1:role/fis" ∉
      (experimenttemplate.Reconcile experimenttemplate.tplConfigSample
        experimenttemplate.tplWorldDeleteFails experimenttemplate.tplDeleting).calls ∧
    experimenttemplate.TplCall.deleteIAMRole "tpl" ∉
      (experimenttemplate.Reconcile experimenttemplate.tplConfigSample
        experimenttemplate.tplWorldDeleteFails experimenttemplate.tplDeleting).calls ∧
    experimenttemplate.TplCall.deleteRBAC "default" ∉
      (experimenttemplate.Reconcile experimenttemplate.tplConfigSample
        experimenttemplate.tplWorldDeleteFails experimenttemplate.tplDeleting).calls := by
  decide

/-- C1 as amended: when step 1 is skipped (no provider template recorded)
or succeeds, the delete path attempts all remaining applicable cleanup
steps in order — access entry, auto-created role, access triples of every
target namespace — with a trace independent of those steps' outcomes, and
then removes the finalizer; a step-1 failure, however, aborts the sequence
and blocks finalizer removal (see the counterexample). -/
theorem C1_deletion_best_effort_after_step1
    (cfg : experimenttemplate.TplConfig) (w : experimenttemplate.TplWorld)
    (tpl : experimenttemplate.ExperimentTemplate)
    (hdel : tpl.deletionTimestampIsZero = false)
    (hfin : tpl.hasFinalizer = true)
    (hstep1 : tpl.status.templateID = "" ∨ w.deleteTemplate = .ok ())
    (hupd : w.finalizerUpdate = .ok ()) :
    experimenttemplate.Reconcile cfg w tpl =
      ⟨{ tpl with hasFinalizer := false }, CtrlResult.empty, none,
        (if tpl.status.templateID ≠ "" then [.deleteTemplate tpl.status.templateID]
          else []) ++ experimenttemplate.handleDeletion.deletionTail cfg tpl⟩ := by
  unfold experimenttemplate.Reconcile experimenttemplate.handleDeletion
  rcases hstep1 with hid | hok
  · simp [hdel, hfin, hid, hupd]
  · by_cases hid : tpl.status.templateID = "" <;> simp [hdel, hfin, hid, hok, hupd]

/-- Witness for the amended C1: successful step 1, failing steps 2-4; all
of them are still attempted and the finalizer is removed. -/
theorem C1_deletion_best_effort_after_step1_witness :
    (experimenttemplate.tplDeleting.deletionTimestampIsZero = false ∧
      experimenttemplate.tplDeleting.hasFinalizer = true) ∧
    experimenttemplate.Reconcile experimenttemplate.tplConfigSample
      experimenttemplate.tplWorldTailFails experimenttemplate.tplDeleting =
      ⟨{ experimenttemplate.tplDeleting with hasFinalizer := false }, CtrlResult.empty, none,
        (if experimenttemplate.tplDeleting.status.templateID ≠ ""
          then [.deleteTemplate experimenttemplate.tplDeleting.status.templateID] else []) ++
          experimenttemplate.handleDeletion.deletionTail experimenttemplate.tplConfigSample
            experimenttemplate.tplDeleting⟩ :=
  ⟨⟨rfl, rfl⟩,
    C1_deletion_best_effort_after_step1 experimenttemplate.tplConfigSample
      experimenttemplate.tplWorldTailFails experimenttemplate.tplDeleting
      rfl rfl (Or.inr rfl) rfl⟩

/-- History bookkeeping never issues a provider start call. -/
theorem cleanupExperimentHistory_no_start (w : experiment.ExpWorld)
    (e : experiment.Experiment) :
    (experiment.cleanupExperimentHistory w e).calls.countP experiment.isStartCall = 0 := by
  unfold experiment.cleanupExperimentHistory
  split
  · rfl
  split
  · rfl
  cases w.listExperiments <;> simp [experiment.isStartCall]

/-- C2 counterexample: an every-minute schedule whose first due reconcile
happens 130s after creation (more than one period late).  The recorded
nextScheduleTime is the occurrence after the missed one (120), while the
schedule's next occurrence after the recorded lastScheduleTime (130) is
180 — so nextScheduleTime does not equal the next occurrence after
lastScheduleTime, refuting the claim's final invariant. -/
theorem C2_late_reconcile_counterexample :
    (experiment.Reconcile experiment.expWorldOK experiment.expSample 130).exp.status.lastScheduleTime = some 130 ∧
    (experiment.Reconcile experiment.expWorldOK experiment.expSample 130).exp.status.nextScheduleTime = some 120 ∧
    experiment.everyMinute 130 = 180 ∧
    (experiment.Reconcile experiment.expWorldOK experiment.expSample 130).exp.status.nextScheduleTime ≠
      some (experiment.everyMinute 130) := by
  decide

/-- C2 as amended: for a scheduled experiment whose cron expression parses,
the due time is the schedule's next occurrence after the last recorded run
time, or after the creation time when no run is recorded (`dueBase`); when
that occurrence is not after now and the start succeeds, exactly one start
is issued, the recorded last-run time is the reconcile's current time, and
status.nextScheduleTime is the schedule's next occurrence after the *due
occurrence* — which equals the next occurrence after lastScheduleTime only
while the reconcile is not more than one period late. -/
theorem C2_scheduled_due_run
    (w : experiment.ExpWorld) (e : experiment.Experiment) (now : Nat)
    (next : Nat → Nat) (eid : String)
    (hs : e.spec.schedule ≠ "")
    (hparse : w.cronParse = .ok next)
    (hdue : next (experiment.dueBase e) ≤ now)
    (htid : e.status.templateID ≠ "")
    (hstart : w.startExperiment = .ok eid)
    (hupd : w.statusUpdate = .ok ()) :
    (experiment.handleScheduledExperiment w e now).calls.countP experiment.isStartCall = 1 ∧
    (experiment.handleScheduledExperiment w e now).exp.status.lastScheduleTime = some now ∧
    (experiment.handleScheduledExperiment w e now).exp.status.nextScheduleTime =
      some (next (next (experiment.dueBase e))) ∧
    (experiment.handleScheduledExperiment w e now).exp.status.experimentID = eid ∧
    (experiment.handleScheduledExperiment w e now).err = none := by
  cases hl : e.status.lastScheduleTime with
  | none =>
    have hdue' : next e.creationTimestamp ≤ now := by
      simpa [experiment.dueBase, hl] using hdue
    simp [experiment.handleScheduledExperiment, experiment.startExperiment,
      experiment.dueBase, hparse, hl, hdue', htid, hstart, hupd, hs,
      cleanupExperimentHistory_no_start, experiment.isStartCall]
  | some last =>
    have hdue' : next last ≤ now := by
      simpa [experiment.dueBase, hl] using hdue
    simp [experiment.handleScheduledExperiment, experiment.startExperiment,
      experiment.dueBase, hparse, hl, hdue', htid, hstart, hupd, hs,
      cleanupExperimentHistory_no_start, experiment.isStartCall]

/-- Witness for the amended C2: the first due reconcile of the sample
every-minute experiment. -/
theorem C2_scheduled_due_run_witness :
    (experiment.expSample.spec.schedule ≠ "" ∧
      experiment.everyMinute (experiment.dueBase experiment.expSample) ≤ 130 ∧
      experiment.expSample.status.templateID ≠ "") ∧
    (experiment.handleScheduledExperiment experiment.expWorldOK experiment.expSample
        130).calls.countP experiment.isStartCall = 1 ∧
    (experiment.handleScheduledExperiment experiment.expWorldOK experiment.expSample
        130).exp.status.lastScheduleTime = some 130 ∧
    (experiment.handleScheduledExperiment experiment.expWorldOK experiment.expSample
        130).exp.status.nextScheduleTime =
      some (experiment.everyMinute (experiment.everyMinute
        (experiment.dueBase experiment.expSample))) :=
  ⟨by decide,
    (C2_scheduled_due_run experiment.expWorldOK experiment.expSample 130
      experiment.everyMinute "EXP123" (by decide) rfl (by decide) (by decide)
      rfl rfl).1,
    (C2_scheduled_due_run experiment.expWorldOK experiment.expSample 130
      experiment.everyMinute "EXP123" (by decide) rfl (by decide) (by decide)
      rfl rfl).2.1,
    (C2_scheduled_due_run experiment.expWorldOK experiment.expSample 130
      experiment.everyMinute "EXP123" (by decide) rfl (by decide) (by decide)
      rfl rfl).2.2.1⟩

/-- Polling never changes the recorded provider experiment id, and issues
exactly the one get call for it. -/
theorem syncExperimentState_spec (w : experiment.ExpWorld) (e : experiment.Experiment) :
    (experiment.syncExperimentState w e).exp.status.experimentID = e.status.experimentID ∧
    (experiment.syncExperimentState w e).calls =
      [.getExperiment e.status.experimentID] := by
  unfold experiment.syncExperimentState
  split
  · simp
  · dsimp only
    repeat' split
    all_goals simp

/-- The start path issues exactly one provider start call, for the resolved
template. -/
theorem startExperiment_calls (w : experiment.ExpWorld) (e : experiment.Experiment)
    (now : Nat) :
    (experiment.startExperiment w e now).calls =
      [.startExperiment e.status.templateID] := by
  unfold experiment.startExperiment
  repeat' split
  all_goals rfl

/-- Deleting an experiment never issues a start call and never changes the
recorded experiment id. -/
theorem expHandleDeletion_spec (w : experiment.ExpWorld) (e : experiment.Experiment) :
    ((experiment.handleDeletion w e).calls = [] ∨
      (experiment.handleDeletion w e).calls =
        [.stopExperiment e.status.experimentID]) ∧
    (experiment.handleDeletion w e).exp.status.experimentID =
      e.status.experimentID := by
  unfold experiment.handleDeletion
  cases hu : w.finalizerUpdate <;> split_ifs <;> simp

/-- The one-time branch starts only from an empty experiment id; from a
non-empty id it only polls and preserves the id. -/
theorem handleOneTime_spec (w : experiment.ExpWorld) (e' : experiment.Experiment)
    (now : Nat) :
    (∀ tid, experiment.FISCall.startExperiment tid ∈
        (experiment.handleOneTimeExperiment w e' now).calls →
      e'.status.experimentID = "") ∧
    (e'.status.experimentID ≠ "" →
      (experiment.handleOneTimeExperiment w e' now).exp.status.experimentID =
        e'.status.experimentID ∧
      ∀ c ∈ (experiment.handleOneTimeExperiment w e' now).calls,
        c = experiment.FISCall.getExperiment e'.status.experimentID) := by
  by_cases h : e'.status.experimentID = ""
  · exact ⟨fun _ _ => h, fun hne => absurd h hne⟩
  · have hone : experiment.handleOneTimeExperiment w e' now =
        experiment.syncExperimentState w e' := by
      unfold experiment.handleOneTimeExperiment
      rw [if_neg h]
    have hs := syncExperimentState_spec w e'
    rw [hone, hs.2]
    refine ⟨fun tid htid => by simp at htid, fun _ => ⟨hs.1, by simp⟩⟩

/-- C4: for a no-schedule Experiment, a provider start call is issued only
when status.experimentID is empty, and a reconcile of a non-deleted object
that already has an experiment id leaves that id unchanged and only polls
it — so the id is set at most once over the object's lifetime. -/
theorem C4_oneshot_starts_at_most_once
    (w : experiment.ExpWorld) (e : experiment.Experiment) (now : Nat)
    (hsched : e.spec.schedule = "") :
    (∀ tid, experiment.FISCall.startExperiment tid ∈
        (experiment.Reconcile w e now).calls → e.status.experimentID = "") ∧
    (e.deletionTimestampIsZero = true → e.status.experimentID ≠ "" →
      (experiment.Reconcile w e now).exp.status.experimentID = e.status.experimentID ∧
      ∀ c ∈ (experiment.Reconcile w e now).calls,
        c = experiment.FISCall.getExperiment e.status.experimentID) := by
  by_cases hd : e.deletionTimestampIsZero = true
  case neg =>
    have hR : experiment.Reconcile w e now = experiment.handleDeletion w e := by
      unfold experiment.Reconcile
      simp [hd]
    rw [hR]
    refine ⟨?_, fun h => absurd h hd⟩
    intro tid htid
    rcases (expHandleDeletion_spec w e).1 with hc | hc <;> simp [hc] at htid
  case pos =>
  by_cases hf : e.hasFinalizer = true
  case neg =>
    have hR : (experiment.Reconcile w e now).calls = [] ∧
        (experiment.Reconcile w e now).exp.status.experimentID =
          e.status.experimentID := by
      unfold experiment.Reconcile
      cases hu : w.finalizerUpdate <;> simp [hd, hf, hu]
    rw [hR.1, hR.2]
    exact ⟨fun tid htid => by simp at htid, fun _ _ => ⟨rfl, by simp⟩⟩
  case pos =>
  by_cases hsusp : e.spec.suspend = some true
  case pos =>
    have hR : experiment.Reconcile w e now = ⟨e, CtrlResult.empty, none, []⟩ := by
      unfold experiment.Reconcile
      simp [hd, hf, hsusp]
    rw [hR]
    exact ⟨fun tid htid => by simp at htid, fun _ _ => ⟨rfl, by simp⟩⟩
  case neg =>
  cases hres : experiment.resolveTemplateID w e with
  | error msg =>
    have hR : (experiment.Reconcile w e now).calls = [] ∧
        (experiment.Reconcile w e now).exp.status.experimentID =
          e.status.experimentID := by
      unfold experiment.Reconcile
      simp [hd, hf, hsusp, hres]
    rw [hR.1, hR.2]
    exact ⟨fun tid htid => by simp at htid, fun _ _ => ⟨rfl, by simp⟩⟩
  | ok tid =>
    by_cases hneq : e.status.templateID ≠ tid
    · cases hu : w.statusUpdate with
      | error msg =>
        have hR : (experiment.Reconcile w e now).calls = [] ∧
            (experiment.Reconcile w e now).exp.status.experimentID =
              e.status.experimentID := by
          unfold experiment.Reconcile
          simp [hd, hf, hsusp, hres, hneq, hu]
        rw [hR.1, hR.2]
        exact ⟨fun tid htid => by simp at htid, fun _ _ => ⟨rfl, by simp⟩⟩
      | ok u =>
        have hR : experiment.Reconcile w e now =
            experiment.handleOneTimeExperiment w
              { e with status := { e.status with templateID := tid } } now := by
          unfold experiment.Reconcile
          simp [hd, hf, hsusp, hres, hneq, hu, hsched]
        rw [hR]
        exact ⟨fun tid' h =>
            (handleOneTime_spec w
              { e with status := { e.status with templateID := tid } } now).1 tid' h,
          fun _ hne =>
            (handleOneTime_spec w
              { e with status := { e.status with templateID := tid } } now).2 hne⟩
    · have hR : experiment.Reconcile w e now =
          experiment.handleOneTimeExperiment w e now := by
        unfold experiment.Reconcile
        simp [hd, hf, hsusp, hres, hneq, hsched]
      rw [hR]
      exact ⟨fun tid' h => (handleOneTime_spec w e now).1 tid' h,
        fun _ hne => (handleOneTime_spec w e now).2 hne⟩

/-- Witness for C4: a reconcile of an already-started one-shot experiment
keeps its experiment id and only polls it. -/
theorem C4_oneshot_starts_at_most_once_witness :
    (experiment.oneShotStarted.spec.schedule = "" ∧
      experiment.oneShotStarted.deletionTimestampIsZero = true ∧
      experiment.oneShotStarted.status.experimentID ≠ "") ∧
    (experiment.Reconcile experiment.expWorldOK experiment.oneShotStarted 55).exp.status.experimentID =
      experiment.oneShotStarted.status.experimentID ∧
    ∀ c ∈ (experiment.Reconcile experiment.expWorldOK experiment.oneShotStarted 55).calls,
      c = experiment.FISCall.getExperiment experiment.oneShotStarted.status.experimentID :=
  ⟨by decide,
    (C4_oneshot_starts_at_most_once experiment.expWorldOK experiment.oneShotStarted 55
      rfl).2 (by decide) (by decide)⟩

/-- A true swap condition means the element at `i` keys no higher than the
one at `j`. -/
theorem swapNeeded_true_le {a b : Option Nat}
    (h : experiment.swapNeeded a b = true) :
    experiment.timeKey a ≤ experiment.timeKey b := by
  cases a <;> cases b <;>
    simp [experiment.swapNeeded, experiment.timeKey] at h ⊢ <;> omega

/-- A false swap condition means the element at `j` keys no higher than the
one at `i`. -/
theorem swapNeeded_false_le {a b : Option Nat}
    (h : experiment.swapNeeded a b = false) :
    experiment.timeKey b ≤ experiment.timeKey a := by
  cases a <;> cases b <;>
    simp [experiment.swapNeeded, experiment.timeKey] at h ⊢ <;> omega

/-- Reading outside the two swapped positions is unchanged. -/
theorem getD_set_set_other (l : List aws.ExperimentSummary) (i j a : Nat)
    (x y : aws.ExperimentSummary) (hai : a ≠ i) (haj : a ≠ j) :
    ((l.set i x).set j y).getD a default = l.getD a default := by
  rw [List.getD_eq_getElem?_getD, List.getElem?_set_ne (fun h => haj h.symm),
    List.getElem?_set_ne (fun h => hai h.symm), ← List.getD_eq_getElem?_getD]

/-- Reading the first swapped position yields the first written value. -/
theorem getD_set_set_left (l : List aws.ExperimentSummary) (i j : Nat)
    (x y : aws.ExperimentSummary) (hij : i ≠ j) (hi : i < l.length) :
    ((l.set i x).set j y).getD i default = x := by
  rw [List.getD_eq_getElem?_getD, List.getElem?_set_ne (fun h => hij h.symm),
    List.getElem?_set_self hi]
  rfl

/-- Reading the second swapped position yields the second written value. -/
theorem getD_set_set_right (l : List aws.ExperimentSummary) (i j : Nat)
    (x y : aws.ExperimentSummary) (hj : j < l.length) :
    ((l.set i x).set j y).getD j default = y := by
  rw [List.getD_eq_getElem?_getD, List.getElem?_set_self (by simpa using hj)]
  rfl

/-- One exchange step preserves the length. -/
theorem sortStep_length (l : List aws.ExperimentSummary) (i j : Nat) :
    (experiment.sortStep l i j).length = l.length := by
  unfold experiment.sortStep
  split <;> simp

/-- One exchange step does not touch positions other than `i` and `j`. -/
theorem keyAt_sortStep_other (l : List aws.ExperimentSummary) (i j a : Nat)
    (hai : a ≠ i) (haj : a ≠ j) :
    experiment.keyAt (experiment.sortStep l i j) a = experiment.keyAt l a := by
  unfold experiment.sortStep experiment.keyAt
  split
  · rw [getD_set_set_other l i j a _ _ hai haj]
  · rfl

/-- One exchange step keeps every suffix value below any bound that held
for the whole suffix. -/
theorem keyAt_sortStep_bound (c : Nat) (l : List aws.ExperimentSummary) (i j : Nat)
    (hij : i < j) (hj : j < l.length)
    (h : ∀ b, i ≤ b → b < l.length → experiment.keyAt l b ≤ c) :
    ∀ b, i ≤ b → b < l.length → experiment.keyAt (experiment.sortStep l i j) b ≤ c := by
  intro b hb hb'
  unfold experiment.sortStep
  split
  · by_cases hbi : b = i
    · subst hbi
      unfold experiment.keyAt
      rw [getD_set_set_left l b j _ _ (by omega) (by omega)]
      exact h j (by omega) hj
    · by_cases hbj : b = j
      · subst hbj
        unfold experiment.keyAt
        rw [getD_set_set_right l i b _ _ hb']
        exact h i (by omega) (by omega)
      · unfold experiment.keyAt
        rw [getD_set_set_other l i j b _ _ hbi hbj]
        exact h b hb hb'
  · exact h b hb hb'

/-- After one exchange step at `(i, j)`, position `i` dominates positions
`i+1 .. j`, given it already dominated `i+1 .. j-1`. -/
theorem keyAt_sortStep_dominates (l : List aws.ExperimentSummary) (i j : Nat)
    (hij : i < j) (hj : j < l.length)
    (h : ∀ k, i < k → k < j → experiment.keyAt l k ≤ experiment.keyAt l i) :
    ∀ k, i < k → k < j + 1 →
      experiment.keyAt (experiment.sortStep l i j) k ≤
        experiment.keyAt (experiment.sortStep l i j) i := by
  intro k hk hk'
  unfold experiment.sortStep
  split
  case isTrue hswap =>
    have hiKey : experiment.keyAt
        ((l.set i (l.getD j default)).set j (l.getD i default)) i =
        experiment.keyAt l j := by
      unfold experiment.keyAt
      rw [getD_set_set_left l i j _ _ (by omega) (by omega)]
    have hle : experiment.timeKey ((l.getD i default).startTime) ≤
        experiment.timeKey ((l.getD j default).startTime) := swapNeeded_true_le hswap
    rw [hiKey]
    by_cases hkj : k = j
    · subst hkj
      unfold experiment.keyAt
      rw [getD_set_set_right l i k _ _ hj]
      exact hle
    · have hkey : experiment.keyAt
          ((l.set i (l.getD j default)).set j (l.getD i default)) k =
          experiment.keyAt l k := by
        unfold experiment.keyAt
        rw [getD_set_set_other l i j k _ _ (by omega) hkj]
      rw [hkey]
      exact le_trans (h k hk (by omega)) (le_trans hle (le_of_eq rfl))
  case isFalse hswap =>
    by_cases hkj : k = j
    · subst hkj
      exact swapNeeded_false_le (Bool.of_not_eq_true hswap)
    · exact h k hk (by omega)

/-- The inner loop preserves the length. -/
theorem sortInner_length (l : List aws.ExperimentSummary) (i j n : Nat) :
    (experiment.sortInner l i j n).length = l.length := by
  unfold experiment.sortInner
  split
  · rw [sortInner_length (experiment.sortStep l i j) i (j + 1) n, sortStep_length]
  · rfl
termination_by n - j
decreasing_by omega

/-- The inner loop at `i` does not touch positions before `i`. -/
theorem keyAt_sortInner_untouched (l : List aws.ExperimentSummary) (i j n a : Nat)
    (hij : i ≤ j) (ha : a < i) :
    experiment.keyAt (experiment.sortInner l i j n) a = experiment.keyAt l a := by
  unfold experiment.sortInner
  split
  · rw [keyAt_sortInner_untouched (experiment.sortStep l i j) i (j + 1) n a
      (by omega) ha]
    exact keyAt_sortStep_other l i j a (by omega) (by omega)
  · rfl
termination_by n - j
decreasing_by omega

/-- The inner loop keeps every suffix value below any bound that held for
the whole suffix. -/
theorem keyAt_sortInner_bound (c : Nat) (l : List aws.ExperimentSummary) (i j n : Nat)
    (hij : i < j) (hn : n = l.length)
    (h : ∀ b, i ≤ b → b < n → experiment.keyAt l b ≤ c) :
    ∀ b, i ≤ b → b < n → experiment.keyAt (experiment.sortInner l i j n) b ≤ c := by
  unfold experiment.sortInner
  split
  case isTrue hjn =>
    exact keyAt_sortInner_bound c (experiment.sortStep l i j) i (j + 1) n
      (by omega) (by rw [sortStep_length]; exact hn)
      (fun b hb hb' => keyAt_sortStep_bound c l i j hij (by omega)
        (fun b' hb1 hb2 => h b' hb1 (by omega)) b hb (by omega))
  case isFalse hjn => exact h
termination_by n - j
decreasing_by omega

/-- After the inner loop at `i` starting from `j`, position `i` dominates
every later position, given it already dominated positions `i+1 .. j-1`. -/
theorem keyAt_sortInner_dominates (l : List aws.ExperimentSummary) (i j n : Nat)
    (hij : i < j) (hn : n = l.length)
    (h : ∀ k, i < k → k < j → experiment.keyAt l k ≤ experiment.keyAt l i) :
    ∀ k, i < k → k < n →
      experiment.keyAt (experiment.sortInner l i j n) k ≤
        experiment.keyAt (experiment.sortInner l i j n) i := by
  unfold experiment.sortInner
  split
  case isTrue hjn =>
    exact keyAt_sortInner_dominates (experiment.sortStep l i j) i (j + 1) n
      (by omega) (by rw [sortStep_length]; exact hn)
      (keyAt_sortStep_dominates l i j hij (by omega) h)
  case isFalse hjn =>
    intro k hk hkn
    exact h k hk (by omega)
termination_by n - j
decreasing_by omega

/-- One outer-loop iteration extends the sorted prefix by one position. -/
theorem sortInner_sortedPrefix (l : List aws.ExperimentSummary) (i n : Nat)
    (hn : n = l.length) (hp : experiment.SortedPrefix i n l) :
    experiment.SortedPrefix (i + 1) n (experiment.sortInner l i (i + 1) n) := by
  intro a b hab hb ha'
  by_cases hai : a < i
  · rw [keyAt_sortInner_untouched l i (i + 1) n a (by omega) hai]
    by_cases hbi : b < i
    · rw [keyAt_sortInner_untouched l i (i + 1) n b (by omega) hbi]
      exact hp a b hab hb hai
    · exact keyAt_sortInner_bound (experiment.keyAt l a) l i (i + 1) n (by omega) hn
        (fun b' hb1 hb2 => hp a b' (by omega) hb2 hai) b (by omega) hb
  · have hai' : a = i := by omega
    subst hai'
    exact keyAt_sortInner_dominates l a (a + 1) n (by omega) hn
      (fun k hk hk' => absurd hk (by omega)) b hab hb

/-- The outer loop preserves the length. -/
theorem sortOuter_length (l : List aws.ExperimentSummary) (i n : Nat) :
    (experiment.sortOuter l i n).length = l.length := by
  unfold experiment.sortOuter
  split
  · rw [sortOuter_length (experiment.sortInner l i (i + 1) n) (i + 1) n,
      sortInner_length]
  · rfl
termination_by n - 1 - i
decreasing_by omega

/-- The outer loop turns any sorted prefix into a full sorted prefix. -/
theorem sortOuter_sortedPrefix (l : List aws.ExperimentSummary) (i n : Nat)
    (hn : n = l.length) (hp : experiment.SortedPrefix i n l) :
    experiment.SortedPrefix (n - 1) n (experiment.sortOuter l i n) := by
  unfold experiment.sortOuter
  split
  case isTrue hin =>
    exact sortOuter_sortedPrefix (experiment.sortInner l i (i + 1) n) (i + 1) n
      (by rw [sortInner_length]; exact hn) (sortInner_sortedPrefix l i n hn hp)
  case isFalse hin =>
    intro a b hab hb ha
    exact hp a b hab hb (by omega)
termination_by n - 1 - i
decreasing_by omega

/-- `sortByStartTimeDesc` sorts descending by start time (nil last). -/
theorem sortByStartTimeDesc_sorted (l : List aws.ExperimentSummary) :
    (experiment.sortByStartTimeDesc l).Pairwise experiment.descByStart := by
  show (experiment.sortOuter l 0 l.length).Pairwise experiment.descByStart
  have hlen : (experiment.sortOuter l 0 l.length).length = l.length :=
    sortOuter_length l 0 l.length
  have h := sortOuter_sortedPrefix l 0 l.length rfl
    (fun a b _ _ ha => absurd ha (Nat.not_lt_zero a))
  rw [List.pairwise_iff_getElem]
  intro a b ha hb hab
  have hkey := h a b hab (by omega) (by omega)
  unfold experiment.keyAt at hkey
  rw [List.getD_eq_getElem _ _ (by omega), List.getD_eq_getElem _ _ (by omega)] at hkey
  exact hkey

/-- Putting back the element read at position `k` in front of a
single-position update is a permutation of putting the written element in
front of the original list. -/
theorem cons_set_perm (xs : List aws.ExperimentSummary) :
    ∀ (k : Nat) (x : aws.ExperimentSummary), k < xs.length →
      List.Perm (xs.getD k default :: xs.set k x) (x :: xs) := by
  induction xs with
  | nil => intro k x hk; simp at hk
  | cons y ys ih =>
    intro k x hk
    cases k with
    | zero => exact List.Perm.swap x y ys
    | succ k' =>
      have h1 : List.Perm
          (ys.getD k' default :: y :: ys.set k' x)
          (y :: ys.getD k' default :: ys.set k' x) :=
        List.Perm.swap y (ys.getD k' default) (ys.set k' x)
      have h2 : List.Perm (y :: ys.getD k' default :: ys.set k' x) (y :: x :: ys) :=
        List.Perm.cons y (ih k' x (by simpa using hk))
      exact (h1.trans h2).trans (List.Perm.swap x y ys)

/-- Exchanging two positions is a permutation. -/
theorem set_set_swap_perm (l : List aws.ExperimentSummary) :
    ∀ i j : Nat, i < j → j < l.length →
      List.Perm ((l.set i (l.getD j default)).set j (l.getD i default)) l := by
  induction l with
  | nil => intro i j _ hj; simp at hj
  | cons x xs ih =>
    intro i j hij hj
    cases i with
    | zero =>
      cases j with
      | zero => omega
      | succ k =>
        exact cons_set_perm xs k x (by simpa using hj)
    | succ i' =>
      cases j with
      | zero => omega
      | succ j' =>
        exact List.Perm.cons x (ih i' j' (by omega) (by simpa using hj))

/-- One exchange step is a permutation. -/
theorem sortStep_perm (l : List aws.ExperimentSummary) (i j : Nat)
    (hij : i < j) (hj : j < l.length) :
    List.Perm (experiment.sortStep l i j) l := by
  unfold experiment.sortStep
  split
  · exact set_set_swap_perm l i j hij hj
  · exact List.Perm.refl l

/-- The inner loop is a permutation. -/
theorem sortInner_perm (l : List aws.ExperimentSummary) (i j n : Nat)
    (hij : i < j) (hn : n = l.length) :
    List.Perm (experiment.sortInner l i j n) l := by
  unfold experiment.sortInner
  split
  case isTrue hjn =>
    exact (sortInner_perm (experiment.sortStep l i j) i (j + 1) n (by omega)
      (by rw [sortStep_length]; exact hn)).trans (sortStep_perm l i j hij (by omega))
  case isFalse hjn => exact List.Perm.refl l
termination_by n - j
decreasing_by omega

/-- The outer loop is a permutation. -/
theorem sortOuter_perm (l : List aws.ExperimentSummary) (i n : Nat)
    (hn : n = l.length) :
    List.Perm (experiment.sortOuter l i n) l := by
  unfold experiment.sortOuter
  split
  case isTrue hin =>
    exact (sortOuter_perm (experiment.sortInner l i (i + 1) n) (i + 1) n
      (by rw [sortInner_length]; exact hn)).trans
      (sortInner_perm l i (i + 1) n (by omega) hn)
  case isFalse hin => exact List.Perm.refl l
termination_by n - 1 - i
decreasing_by omega

/-- `sortByStartTimeDesc` permutes its input. -/
theorem sortByStartTimeDesc_perm (l : List aws.ExperimentSummary) :
    List.Perm (experiment.sortByStartTimeDesc l) l :=
  sortOuter_perm l 0 l.length rfl

/-- C8: history bookkeeping lists the runs of the resolved template and
issues no other provider call — in particular never a delete; it partitions
the listing into completed versus failed/stopped runs, sorts each
descending by start time (a sorted permutation), and the entries beyond
the retention limits (defaults 3 successful, 1 failed) are only reported
in the log, never removed. -/
theorem C8_history_bookkeeping_advisory
    (w : experiment.ExpWorld) (e : experiment.Experiment)
    (exps : List aws.ExperimentSummary)
    (hsched : e.spec.schedule ≠ "")
    (htid : e.status.templateID ≠ "")
    (hlist : w.listExperiments = .ok exps) :
    (∀ (w' : experiment.ExpWorld) (e' : experiment.Experiment) (eid : String),
      experiment.FISCall.deleteExperiment eid ∉
        (experiment.cleanupExperimentHistory w' e').calls) ∧
    (experiment.cleanupExperimentHistory w e).calls =
      [.listExperiments e.status.templateID] ∧
    (experiment.cleanupExperimentHistory w e).loggedSuccessful =
      (experiment.sortByStartTimeDesc
        (exps.filter (fun x => x.state = "completed"))).drop
        (e.spec.successfulExperimentsHistoryLimit.getD 3) ∧
    (experiment.cleanupExperimentHistory w e).loggedFailed =
      (experiment.sortByStartTimeDesc
        (exps.filter (fun x => x.state = "failed" ∨ x.state = "stopped"))).drop
        (e.spec.failedExperimentsHistoryLimit.getD 1) ∧
    (∀ l : List aws.ExperimentSummary,
      List.Perm (experiment.sortByStartTimeDesc l) l ∧
      (experiment.sortByStartTimeDesc l).Pairwise experiment.descByStart) := by
  have hnodelete : ∀ (w' : experiment.ExpWorld) (e' : experiment.Experiment) (eid : String),
      experiment.FISCall.deleteExperiment eid ∉
        (experiment.cleanupExperimentHistory w' e').calls := by
    intro w' e' eid
    unfold experiment.cleanupExperimentHistory
    split
    · simp
    split
    · simp
    cases w'.listExperiments <;> simp
  have hdrop : ∀ (l : List aws.ExperimentSummary) (k : Nat),
      (if l.length > k then l.drop k else []) = l.drop k := by
    intro l k
    split
    · rfl
    · exact (List.drop_eq_nil_of_le (by omega)).symm
  refine ⟨hnodelete, ?_, ?_, ?_, fun l => ⟨sortByStartTimeDesc_perm l,
    sortByStartTimeDesc_sorted l⟩⟩ <;>
    · unfold experiment.cleanupExperimentHistory
      simp only [hsched, htid, hlist, if_neg, hdrop]
      simp [hsched, htid, hdrop]

/-- Witness for C8 on a concrete six-run listing. -/
theorem C8_history_bookkeeping_advisory_witness :
    (experiment.expSample.spec.schedule ≠ "" ∧
      experiment.expSample.status.templateID ≠ "" ∧
      experiment.worldWithHistory.listExperiments = .ok experiment.histListing) ∧
    (experiment.cleanupExperimentHistory experiment.worldWithHistory
        experiment.expSample).calls =
      [.listExperiments experiment.expSample.status.templateID] ∧
    (experiment.cleanupExperimentHistory experiment.worldWithHistory
        experiment.expSample).loggedSuccessful =
      (experiment.sortByStartTimeDesc
        (experiment.histListing.filter (fun x => x.state = "completed"))).drop
        (experiment.expSample.spec.successfulExperimentsHistoryLimit.getD 3) ∧
    (experiment.cleanupExperimentHistory experiment.worldWithHistory
        experiment.expSample).loggedFailed =
      (experiment.sortByStartTimeDesc
        (experiment.histListing.filter (fun x => x.state = "failed" ∨
          x.state = "stopped"))).drop
        (experiment.expSample.spec.failedExperimentsHistoryLimit.getD 1) :=
  ⟨⟨by decide, by decide, rfl⟩,
    (C8_history_bookkeeping_advisory experiment.worldWithHistory experiment.expSample
      experiment.histListing (by decide) (by decide) rfl).2.1,
    (C8_history_bookkeeping_advisory experiment.worldWithHistory experiment.expSample
      experiment.histListing (by decide) (by decide) rfl).2.2.1,
    (C8_history_bookkeeping_advisory experiment.worldWithHistory experiment.expSample
      experiment.histListing (by decide) (by decide) rfl).2.2.2.1⟩
